import Mathlib

/-!
Verification development for the finance analytics core of server.py
(finance-mcp). Python floats are modelled as exact rationals; values that
the source produces with a square root (volatility, Sharpe, correlation,
diversification) live in the reals, and a float that pandas makes NaN
(sample statistics of fewer than 2 observations, and what NaN propagates
into) is modelled as the none of an Option. A pandas price/return series is a
List of rationals ordered by date; the data provider (yfinance) is an
abstract function from symbols to close-price series. Fallible code
(raising, caught by the per-tool try/except) is modelled with
Except String; Python dict results become an inductive with an error and
an ok constructor, mirroring the error-map versus report shapes.
-/

namespace Finance

/-! ## SeriesMath primitives (server.py lines 74-93) -/

/-- Python round(x, 2) on the rational model of a float. Mathlib round is
round-half-up while Python rounds half to even; no value in this
development sits on an exact half, so the two agree everywhere used. -/
def round2 (x : ℚ) : ℚ := ((round (x * 100) : ℤ) : ℚ) / 100

/-- round(x, 2) for real-valued quantities. -/
noncomputable def roundR2 (x : ℝ) : ℝ := ((round (x * 100) : ℤ) : ℝ) / 100

/-- round(x, 3), used by the correlation matrix. -/
noncomputable def roundR3 (x : ℝ) : ℝ := ((round (x * 1000) : ℤ) : ℝ) / 1000

/-- safe_divide (server.py line 74-76): a / b if b != 0 else 0. -/
def safe_divide {α : Type} [DivisionRing α] [DecidableEq α] (a b : α) : α :=
  if b ≠ 0 then a / b else 0

/-- pandas Series.mean(): sum over length. On an empty series pandas gives
NaN; the rational model gives 0 (division by zero). Every call site either
has a nonempty series, or feeds the mean into a computation whose NaN is
carried by the volatility path (calculate_sharpe_ratio), or guards the
empty case itself (the annual_return field of compare_entry). -/
def mean (xs : List ℚ) : ℚ := xs.sum / (xs.length : ℚ)

/-- pandas Series.var() with ddof = 1 (the variance under Series.std()):
NaN -- modelled none -- for fewer than 2 observations, since the ddof = 1
denominator is then zero or negative-degrees-of-freedom; the sample
variance otherwise. -/
def sampleVar (xs : List ℚ) : Option ℚ :=
  if xs.length < 2 then none
  else some (((xs.map (fun x => (x - mean xs) ^ 2)).sum) / ((xs.length : ℚ) - 1))

/-- prices.pct_change() (server.py line 80): the first entry is NaN
(modelled none); entry i is close[i]/close[i-1] - 1. A 0/0 quotient is
NaN in pandas and is modelled none; a nonzero/0 quotient is +-inf in
pandas (kept by dropna), modelled as the rational value so that the
entry is still present -- theorems about return values assume strictly
positive closes, the PriceSeries invariant of the data model. -/
def pct_change (prices : List ℚ) : List (Option ℚ) :=
  none :: List.zipWith
    (fun prev cur => if prev = 0 ∧ cur = 0 then none else some (cur / prev - 1))
    prices prices.tail

/-- calculate_returns (server.py lines 78-80): pct_change().dropna(). -/
def calculate_returns (prices : List ℚ) : List ℚ :=
  (pct_change prices).filterMap id

/-- calculate_volatility (server.py lines 82-87): std of returns
(ddof = 1), times sqrt 252 when annualized. none models the NaN the code
computes for fewer than 2 returns (NaN times sqrt 252 is NaN). -/
noncomputable def calculate_volatility (returns : List ℚ) (annualize : Bool) : Option ℝ :=
  (sampleVar returns).map
    (fun v => Real.sqrt v * (if annualize then Real.sqrt 252 else 1))

/-- calculate_sharpe_ratio (server.py lines 89-93):
safe_divide(mean * 252 - risk_free_rate, annualized volatility). When the
volatility is NaN the guard does not fire (NaN != 0 is true in Python)
and the quotient is NaN, modelled none; the mean of an empty return
series is NaN too, but in that case the volatility is already NaN, so
the none branch covers it. -/
noncomputable def calculate_sharpe_ratio (returns : List ℚ) (risk_free_rate : ℚ) :
    Option ℝ :=
  match calculate_volatility returns true with
  | none => none
  | some vol => some (safe_divide ((mean returns * 252 - risk_free_rate : ℚ) : ℝ) vol)

/-! ## Validation (server.py lines 32-51) -/

/-- validate_symbol (server.py lines 32-44): non-empty, uppercased and
stripped, and alphanumeric once dots and dashes are removed.
ALLOWED_SYMBOLS is empty in the source, so that check never fires. -/
def validate_symbol (symbol : String) : Except String String :=
  if symbol = "" then .error "Symbol must be a non-empty string"
  else
    let s := symbol.toUpper.trim
    let core := s.toList.filter (fun c => c != '.' && c != '-')
    if !core.isEmpty && core.all Char.isAlphanum then .ok s
    else .error "Invalid symbol format"

def valid_periods : List String :=
  ["1d", "5d", "1mo", "3mo", "6mo", "1y", "2y", "5y", "10y", "ytd", "max"]

/-- validate_period (server.py lines 46-51). -/
def validate_period (period : String) : Except String String :=
  if valid_periods.contains period then .ok period
  else .error ("Period must be one of: " ++ String.intercalate ", " valid_periods)

/-- A Python loop that applies a fallible step to each element in order and
aborts at the first raised exception (list comprehensions and the data
fetch loops all behave this way). -/
def mapExcept {α β : Type} (f : α → Except String β) : List α → Except String (List β)
  | [] => .ok []
  | a :: as =>
    match f a with
    | .error e => .error e
    | .ok b =>
      match mapExcept f as with
      | .error e => .error e
      | .ok bs => .ok (b :: bs)

/-! ## Series aggregates used by the drawdown and ranking code -/

/-- pandas Series.min(): the least element of a nonempty series (NaN on an
empty one; 0 stands in, every use is on a nonempty series). -/
def series_min : List ℚ → ℚ
  | [] => 0
  | x :: xs => xs.foldl min x

/-- pandas Series.max() under the same convention as series_min. -/
def series_max : List ℚ → ℚ
  | [] => 0
  | x :: xs => xs.foldl max x

/-- (1 + returns).cumprod(): running products of the growth factors. -/
def cumprod1p (rs : List ℚ) : List ℚ :=
  (List.scanl (fun acc r => acc * (1 + r)) 1 rs).tail

/-- series.cumsum(): running partial sums. -/
def cumsum (rs : List ℚ) : List ℚ :=
  (List.scanl (fun acc r => acc + r) 0 rs).tail

/-- series.expanding().max(): the running maximum at each index. -/
def running_max : List ℚ → List ℚ
  | [] => []
  | x :: xs => List.scanl max x xs

/-- Maximum drawdown of get_risk_analysis (server.py lines 322-326 and
341): cumulative product of (1 + r), running peak, pointwise
(cumulative - peak) / peak, most negative value times 100, rounded. -/
def risk_max_drawdown (stock_aligned : List ℚ) : ℚ :=
  round2 (series_min
    (List.zipWith (fun c p => (c - p) / p)
      (cumprod1p stock_aligned) (running_max (cumprod1p stock_aligned))) * 100)

/-- The max_drawdown expression of get_portfolio_analysis (server.py line
594): (cumsum.expanding().max() - cumsum).max() * 100, rounded to 2. -/
def portfolio_max_drawdown (portfolio_returns : List ℚ) : ℚ :=
  round2 (series_max
    (List.zipWith (fun p c => p - c)
      (running_max (cumsum portfolio_returns)) (cumsum portfolio_returns)) * 100)

/-! ## TrendEngine momentum (server.py lines 216-217, 236-238, 251-252) -/

/-- The momentum expression of get_trend_analysis for a trailing window:
(current_price / close_prices.iloc[-(window+1)] - 1) * 100 when more than
window bars exist, else None (server.py lines 237-238). -/
def momentum_value (close_prices : List ℚ) (window : ℕ) : Option ℚ :=
  if window < close_prices.length then
    some ((close_prices.getLastD 0 /
      close_prices.getD (close_prices.length - (window + 1)) 0 - 1) * 100)
  else none

/-- The reported momentum field (server.py lines 251-252):
round(momentum, 2) if momentum else None. A Python float is falsy exactly
when it is 0.0, so a None momentum and a zero momentum both report null. -/
def momentum_field : Option ℚ → Option ℚ
  | some m => if m = 0 then none else some (round2 m)
  | none => none

/-- The momentum fields of get_trend_analysis (server.py lines 216-217 gate
the series at 50 bars; lines 236-238 and 251-252 build the two fields).
The moving-average and trend-label fields of the report are not touched by
any claim and are omitted; the gate and the momentum computation are
transcribed in full. -/
def get_trend_momentum (symbol : String) (close_prices : List ℚ) :
    Except String (Option ℚ × Option ℚ) :=
  if close_prices.length < 50 then
    .error ("Insufficient data for trend analysis of " ++ symbol)
  else
    .ok (momentum_field (momentum_value close_prices 10),
         momentum_field (momentum_value close_prices 30))

/-! ## RiskEngine rating (server.py line 343) -/

/-- The risk_rating expression of get_risk_analysis:
"Low" if volatility < 0.15 else "Medium" if volatility < 0.25 else "High". -/
def risk_rating (volatility : ℚ) : String :=
  if volatility < 15 / 100 then "Low"
  else if volatility < 25 / 100 then "Medium"
  else "High"

/-! ## ComparisonEngine ranking (server.py lines 424-434) -/

/-- Python list ** int: lists do not support the power operator, so the
expression weights**2 at server.py line 598 raises
TypeError("unsupported operand type(s) for ** or pow(): 'list' and 'int'")
-- weights is a plain Python list on both branches of the weights
defaulting at lines 535-541. -/
def listPow (_ws : List ℚ) (_k : ℕ) : Except String (List ℚ) :=
  .error "unsupported operand type(s) for ** or pow(): 'list' and 'int'"

/-- Dot product of two equal-length series (np.dot on vectors). -/
def dotQ (xs ys : List ℚ) : ℚ := (List.zipWith (fun x y => x * y) xs ys).sum

/-- pandas Series.cov-style sample covariance (ddof = 1). With fewer than
2 observations pandas gives NaN where this model gives 0; the value feeds
only the correlation matrix (whose own NaN cases pearson carries via the
matching sampleVar guard) and the diversification expression that is
never evaluated (the listPow step raises first). -/
def sampleCov (xs ys : List ℚ) : ℚ :=
  ((List.zipWith (fun x y => (x - mean xs) * (y - mean ys)) xs ys).sum) /
    ((xs.length : ℚ) - 1)

/-- returns_df.cov().values: the sample covariance matrix of the aligned
return columns. -/
def cov_matrix (cols : List (List ℚ)) : List (List ℚ) :=
  cols.map (fun x => cols.map (fun y => sampleCov x y))

/-- np.diag of a square matrix. -/
def diagQ (m : List (List ℚ)) : List ℚ :=
  (List.range m.length).map (fun i => (m.getD i []).getD i 0)

/-- Matrix-vector product (np.dot on a matrix and a vector). -/
def mat_vec (m : List (List ℚ)) (v : List ℚ) : List ℚ :=
  m.map (fun row => dotQ row v)

/-- Pearson correlation of two aligned return columns, as
returns_df.corr() computes it: covariance over the product of the
standard deviations; NaN (none) when either standard deviation is NaN
(fewer than 2 aligned rows). A zero standard deviation also gives NaN in
pandas where the model's real division by zero gives 0 -- no claim
touches correlation values. -/
noncomputable def pearson (xs ys : List ℚ) : Option ℝ :=
  match sampleVar xs, sampleVar ys with
  | some vx, some vy =>
    some (((sampleCov xs ys : ℚ) : ℝ) / (Real.sqrt vx * Real.sqrt vy))
  | _, _ => none

/-- returns_df.corr().round(3) (server.py line 584); round(NaN, 3) is
NaN, kept as none. -/
noncomputable def corr_matrix (cols : List (List ℚ)) : List (List (Option ℝ)) :=
  cols.map (fun x => cols.map (fun y => (pearson x y).map roundR3))

/-- Portfolio metrics (a none is the NaN float of a sub-2-row aligned
frame, as in CompMetrics). -/
structure PortfolioMetrics where
  annual_return : ℚ
  volatility : Option ℝ
  sharpe_ratio : Option ℝ
  max_drawdown : ℚ

structure IndividualMetrics where
  weight : ℚ
  volatility : Option ℝ
  sharpe_ratio : Option ℝ
  contribution_to_return : ℚ

structure PortfolioReport where
  symbols : List String
  weights : List ℚ
  period : String
  portfolio_metrics : PortfolioMetrics
  individual_metrics : List (String × IndividualMetrics)
  correlation_matrix : List (List (Option ℝ))
  diversification_ratio : ℝ

/-- The result map of get_portfolio_analysis: the error map of its
catch-all, or the (never produced, see the claims) success report. -/
inductive PortfolioResult where
  | err (msg : String)
  | ok (rep : PortfolioReport)

def PortfolioResult.isErr : PortfolioResult → Bool
  | .err _ => true
  | .ok _ => false

/-- The weights defaulting and checks (server.py lines 535-541). Python
`if weights:` is false both for None and for an empty list, so both take
the equal-weighting branch; a nonempty list is checked for length and for
a sum within 0.01 of 1. -/
def portfolio_weights (syms : List String) (weights? : Option (List ℚ)) :
    Except String (List ℚ) :=
  match weights? with
  | none => .ok (List.replicate syms.length (1 / (syms.length : ℚ)))
  | some [] => .ok (List.replicate syms.length (1 / (syms.length : ℚ)))
  | some ws =>
    if ws.length ≠ syms.length then
      .error "Number of weights must match number of symbols"
    else if 1 / 100 < |ws.sum - 1| then .error "Weights must sum to 1.0"
    else .ok ws

/-- The data fetch loop (server.py lines 549-557): the FIRST symbol whose
history is empty makes the whole function return its error map -- there
is no per-symbol isolation in this loop. -/
def fetch_histories (market : String → List ℚ) (syms : List String) :
    Except String (List (List ℚ)) :=
  mapExcept
    (fun s => if market s = [] then .error ("No data available for " ++ s)
              else .ok (market s)) syms

/-- pd.DataFrame(returns_data).dropna() modelled positionally: the columns
share the date index, a row is kept when every column has a value at that
date. With equal-length columns this is the plain transpose; a short or
empty column drops the unmatched rows, as the inner join on dates does. -/
def dropna_rows (cols : List (List ℚ)) : List (List ℚ) :=
  (List.transpose cols).filter (fun row => row.length == cols.length)

/-- The metric construction of get_portfolio_analysis (server.py lines
565-600). The result-dict fields are evaluated in source order; every
field before diversification_ratio is a total computation, and the
diversification_ratio expression evaluates weights ** 2 on a Python
list, so the construction always raises there and the report value is
never produced. -/
noncomputable def portfolio_build (syms : List String) (weights : List ℚ)
    (per : String) (returns_df : List (List ℚ)) : Except String PortfolioReport :=
  let portfolio_returns := returns_df.map (fun row => dotQ row weights)
  let portfolio_vol := calculate_volatility portfolio_returns true
  let portfolio_sharpe := calculate_sharpe_ratio portfolio_returns (2 / 100)
  let cols := (List.range syms.length).map (fun i => returns_df.map (fun row => row.getD i 0))
  let individual := (List.range syms.length).map (fun i =>
    ((syms.getD i "", {
        weight := round2 (weights.getD i 0 * 100)
        volatility :=
          (calculate_volatility (cols.getD i []) true).map (fun v => roundR2 (v * 100))
        sharpe_ratio := (calculate_sharpe_ratio (cols.getD i []) (2 / 100)).map roundR2
        contribution_to_return :=
          round2 (mean (cols.getD i []) * weights.getD i 0 * 252 * 100) }) :
      String × IndividualMetrics))
  let correlation := corr_matrix cols
  let pm : PortfolioMetrics := {
    annual_return := round2 (mean portfolio_returns * 252 * 100)
    volatility := portfolio_vol.map (fun v => roundR2 (v * 100))
    sharpe_ratio := portfolio_sharpe.map roundR2
    max_drawdown := portfolio_max_drawdown portfolio_returns }
  match listPow weights 2 with
  | .error e => .error e
  | .ok w2 =>
    let covm := cov_matrix cols
    .ok {
      symbols := syms
      weights := weights.map (fun w => round2 (w * 100))
      period := per
      portfolio_metrics := pm
      individual_metrics := individual
      correlation_matrix := correlation
      diversification_ratio :=
        roundR2 (1 / Real.sqrt ((dotQ weights (mat_vec covm weights) : ℚ)) *
          Real.sqrt ((dotQ w2 (diagQ covm) : ℚ))) }

/-- The body of get_portfolio_analysis up to its catch-all (server.py
lines 526-600), with the guards in source order. -/
noncomputable def portfolio_body (market : String → List ℚ) (symbols : List String)
    (weights? : Option (List ℚ)) (period : String) : Except String PortfolioReport :=
  if symbols.length = 0 then .error "No symbols provided"
  else if 20 < symbols.length then .error "Maximum 20 symbols allowed in portfolio"
  else
    match mapExcept validate_symbol symbols with
    | .error e => .error e
    | .ok syms =>
      match portfolio_weights syms weights? with
      | .error e => .error e
      | .ok ws =>
        match validate_period period with
        | .error e => .error e
        | .ok per =>
          match fetch_histories market syms with
          | .error e => .error e
          | .ok hists =>
            if dropna_rows (hists.map calculate_returns) = [] then
              .error "No overlapping data found for portfolio analysis"
            else portfolio_build syms ws per (dropna_rows (hists.map calculate_returns))

/-- get_portfolio_analysis (server.py lines 509-604): the body, with the
catch-all turning any raised error into the error map. -/
noncomputable def get_portfolio_analysis (market : String → List ℚ)
    (symbols : List String) (weights? : Option (List ℚ)) (period : String) :
    PortfolioResult :=
  match portfolio_body market symbols weights? period with
  | .error e => .err e
  | .ok rep => .ok rep

/-! ## Concrete data providers used by the closed theorems -/

/-- A provider with one symbol of data, for the single-symbol portfolio. -/
def marketC2 : String → List ℚ :=
  fun s => if s = "AAPL" then [100, 101, 99, 102] else []

/-- A provider where symbol A has no data and symbol B does. -/
def market3 : String → List ℚ :=
  fun s => if s = "B" then [100, 101, 102] else []

/-- A provider where the first symbol (B) has data and the second (A)
does not. -/
def market3w : String → List ℚ :=
  fun t => if t = "B" then [100, 101] else []

/-- Fifty bars of a constant price. -/
def constant_closes : List ℚ := List.replicate 50 100

/-- Fifty bars: flat at 100, then a last bar at 110. -/
def closesC6 : List ℚ := List.replicate 49 100 ++ [110]

/-- The metric construction always raises: the listPow step errors before
the report value can be assembled. -/
theorem portfolio_build_error (syms : List String) (ws : List ℚ) (per : String)
    (returns_df : List (List ℚ)) :
    portfolio_build syms ws per returns_df =
      Except.error "unsupported operand type(s) for ** or pow(): 'list' and 'int'" := rfl

/-- Every branch of the portfolio body ends in an error: each guard either
raises or passes control on, and the final metric construction raises. -/
theorem portfolio_body_error (market : String → List ℚ) (symbols : List String)
    (weights? : Option (List ℚ)) (period : String) :
    ∃ e, portfolio_body market symbols weights? period = Except.error e := by
  unfold portfolio_body
  repeat' split
  all_goals exact ⟨_, rfl⟩

/-- Daily returns of a strictly positive price series: every pct_change
entry past the first is present, so dropna removes exactly the first. -/
theorem calculate_returns_pos :
    ∀ prices : List ℚ, (∀ p ∈ prices, 0 < p) →
      calculate_returns prices =
        List.zipWith (fun prev cur => cur / prev - 1) prices prices.tail := by
  intro prices
  induction prices with
  | nil => intro _; rfl
  | cons p ps ih =>
    intro hpos
    cases ps with
    | nil => rfl
    | cons q rest =>
      have hp : (0:ℚ) < p := hpos p (List.mem_cons_self _ _)
      have hrest : ∀ x ∈ q :: rest, (0:ℚ) < x :=
        fun x hx => hpos x (List.mem_cons_of_mem _ hx)
      have ihq := ih hrest
      have hcond : ¬ (p = 0 ∧ q = 0) := fun h => absurd h.1 (ne_of_gt hp)
      simp only [calculate_returns, pct_change, List.tail_cons, List.zipWith_cons_cons,
        List.filterMap_cons, id] at ihq ⊢
      rw [if_neg hcond]
      simp only [List.filterMap_cons, id] at ihq ⊢
      rw [ihq]

/-- Returns of a constant price series are all zero. -/
theorem calculate_returns_const (c : ℚ) (hc : c ≠ 0) :
    ∀ prices : List ℚ, (∀ p ∈ prices, p = c) →
      calculate_returns prices = List.replicate (prices.length - 1) 0 := by
  intro prices
  induction prices with
  | nil => intro _; rfl
  | cons p ps ih =>
    intro hall
    cases ps with
    | nil => rfl
    | cons q rest =>
      have hp : p = c := hall p (List.mem_cons_self _ _)
      have hq : q = c := hall q (List.mem_cons_of_mem _ (List.mem_cons_self _ _))
      have hrest : ∀ x ∈ q :: rest, x = c :=
        fun x hx => hall x (List.mem_cons_of_mem _ hx)
      have ihq := ih hrest
      have hcond : ¬ (p = 0 ∧ q = 0) := fun h => absurd (hp ▸ h.1) hc
      simp only [calculate_returns, pct_change, List.tail_cons, List.zipWith_cons_cons,
        List.filterMap_cons, id] at ihq ⊢
      rw [if_neg hcond]
      simp only [List.filterMap_cons, id] at ihq ⊢
      rw [ihq, hp, hq, div_self hc]
      simp [List.replicate]

theorem mean_replicate_zero (k : ℕ) : mean (List.replicate k 0) = 0 := by
  simp [mean, List.sum_replicate]

/-- With at least two zero observations the sample variance is a number,
and that number is 0. -/
theorem sampleVar_replicate_zero {k : ℕ} (hk : 2 ≤ k) :
    sampleVar (List.replicate k 0) = some 0 := by
  unfold sampleVar
  rw [if_neg (by simp; omega)]
  simp [List.map_replicate, mean_replicate_zero, List.sum_replicate]

/-- With fewer than two observations the sample variance is NaN. -/
theorem sampleVar_short_nan {xs : List ℚ} (h : xs.length < 2) :
    sampleVar xs = none := by
  unfold sampleVar
  rw [if_pos h]

theorem foldl_min_le {α : Type} [LinearOrder α] :
    ∀ (l : List α) (a : α), l.foldl min a ≤ a := by
  intro l
  induction l with
  | nil => intro a; exact le_refl a
  | cons x xs ih =>
    intro a
    exact le_trans (ih (min a x)) (min_le_left a x)

theorem le_foldl_max {α : Type} [LinearOrder α] :
    ∀ (l : List α) (a : α), a ≤ l.foldl max a := by
  intro l
  induction l with
  | nil => intro a; exact le_refl a
  | cons x xs ih =>
    intro a
    exact le_trans (le_max_left a x) (ih (max a x))

theorem round2_nonpos {x : ℚ} (h : x ≤ 0) : round2 x ≤ 0 := by
  have h1 : round (x * 100) ≤ 0 := by
    rw [round_eq]
    have h2 : ⌊x * 100 + 1 / 2⌋ ≤ ⌊(1:ℚ) / 2⌋ := Int.floor_le_floor (by nlinarith)
    have h3 : ⌊(1:ℚ) / 2⌋ = 0 := by
      rw [Int.floor_eq_zero_iff]
      constructor <;> norm_num
    omega
  unfold round2
  have h4 : ((round (x * 100) : ℤ) : ℚ) ≤ 0 := by exact_mod_cast h1
  exact div_nonpos_of_nonpos_of_nonneg h4 (by norm_num)

theorem round2_nonneg {x : ℚ} (h : 0 ≤ x) : 0 ≤ round2 x := by
  have h1 : 0 ≤ round (x * 100) := by
    rw [round_eq]
    exact Int.le_floor.mpr (by push_cast; nlinarith)
  unfold round2
  have h4 : 0 ≤ ((round (x * 100) : ℤ) : ℚ) := by exact_mod_cast h1
  exact div_nonneg h4 (by norm_num)

/-- The drawdown series of get_risk_analysis starts at (c - c)/c = 0, and a
left fold of min never exceeds its start. -/
theorem risk_drawdown_series_nonpos (cum : List ℚ) :
    series_min (List.zipWith (fun c p => (c - p) / p) cum (running_max cum)) ≤ 0 := by
  cases cum with
  | nil => simp [series_min, running_max]
  | cons c ct =>
    cases ct with
    | nil =>
      simp [series_min, running_max, List.scanl]
    | cons x ct2 =>
      simp only [running_max, List.scanl, List.zipWith_cons_cons, series_min]
      have h0 : (c - c) / c = 0 := by rw [sub_self, zero_div]
      rw [h0]
      exact foldl_min_le _ 0

/-- The peak-minus-cumsum series of the portfolio drawdown expression
starts at c - c = 0, and a left fold of max never drops below its start. -/
theorem portfolio_drawdown_series_nonneg (cs : List ℚ) :
    0 ≤ series_max (List.zipWith (fun p c => p - c) (running_max cs) cs) := by
  cases cs with
  | nil => simp [series_max, running_max]
  | cons c ct =>
    cases ct with
    | nil =>
      simp [series_max, running_max, List.scanl]
    | cons x ct2 =>
      simp only [running_max, List.scanl, List.zipWith_cons_cons, series_max]
      rw [sub_self]
      exact le_foldl_max _ 0

theorem getD_mem_of_lt {l : List ℚ} {n : ℕ} (h : n < l.length) (d : ℚ) :
    l.getD n d ∈ l := by
  rw [List.getD_eq_getElem l d h]
  exact List.getElem_mem h

theorem getLastD_mem_of_ne_nil {l : List ℚ} (h : l ≠ []) (d : ℚ) :
    l.getLastD d ∈ l := by
  cases l with
  | nil => exact absurd rfl h
  | cons x xs =>
    rw [List.getLastD_cons]
    exact List.getLastD_mem_cons xs x

/-- For a strictly positive series with more than w bars, the reported
momentum field is null exactly when the trailing-window price change is
zero, and otherwise the rounded percentage change. -/
theorem momentum_field_char (closes : List ℚ) (w : ℕ)
    (hw : w < closes.length) (hpos : ∀ p ∈ closes, 0 < p) :
    momentum_field (momentum_value closes w) =
      (if closes.getLastD 0 = closes.getD (closes.length - (w + 1)) 0 then none
       else some (round2
        ((closes.getLastD 0 / closes.getD (closes.length - (w + 1)) 0 - 1) * 100))) := by
  have hne : closes ≠ [] := by
    intro h
    rw [h] at hw
    exact Nat.not_lt_zero w hw
  have hidx : closes.length - (w + 1) < closes.length := by omega
  have hc : (0:ℚ) < closes.getD (closes.length - (w + 1)) 0 :=
    hpos _ (getD_mem_of_lt hidx 0)
  have hlast : (0:ℚ) < closes.getLastD 0 := hpos _ (getLastD_mem_of_ne_nil hne 0)
  unfold momentum_value
  rw [if_pos hw]
  have hiff : (closes.getLastD 0 / closes.getD (closes.length - (w + 1)) 0 - 1) * 100 = 0
      ↔ closes.getLastD 0 = closes.getD (closes.length - (w + 1)) 0 := by
    rw [mul_eq_zero]
    constructor
    · intro h
      rcases h with h | h
      · rw [sub_eq_zero] at h
        rw [div_eq_one_iff_eq (ne_of_gt hc)] at h
        exact h
      · norm_num at h
    · intro h
      left
      rw [sub_eq_zero, div_eq_one_iff_eq (ne_of_gt hc)]
      exact h
  simp only [momentum_field]
  rw [if_congr hiff rfl rfl]

/-- The portfolio data-fetch loop errors out at the first symbol whose
history is empty, whatever follows it. -/
theorem fetch_histories_first_missing :
    ∀ (market : String → List ℚ) (pre post : List String) (s : String),
      (∀ t ∈ pre, market t ≠ []) → market s = [] →
      fetch_histories market (pre ++ s :: post) =
        Except.error ("No data available for " ++ s) := by
  intro market pre
  induction pre with
  | nil =>
    intro post s _ hs
    simp [fetch_histories, mapExcept, hs]
  | cons t ts ih =>
    intro post s hpre hs
    have ht : market t ≠ [] := hpre t (List.mem_cons_self _ _)
    have hrec := ih post s (fun u hu => hpre u (List.mem_cons_of_mem _ hu)) hs
    simp only [fetch_histories] at hrec ⊢
    rw [List.cons_append]
    simp only [mapExcept, if_neg ht, hrec]

/-- C1: for every input whatsoever -- in particular every validated
symbols, weights and period combination that reaches the
metric-construction step -- get_portfolio_analysis returns an error map
and never the successful portfolio report: the diversification-ratio
expression applies ** to the Python list weights, the raised TypeError
falls into the catch-all, and the function yields an error result. -/
theorem portfolio_analysis_always_errors (market : String → List ℚ)
    (symbols : List String) (weights? : Option (List ℚ)) (period : String) :
    (get_portfolio_analysis market symbols weights? period).isErr = true := by
  obtain ⟨e, he⟩ := portfolio_body_error market symbols weights? period
  unfold get_portfolio_analysis
  rw [he]
  rfl

/-- C2: a single-symbol portfolio with weight 1 and a valid non-empty
price history -- which per the claim should report diversification_ratio
1.0 -- instead returns the error map produced by the TypeError that
weights ** 2 raises on a Python list. -/
theorem portfolio_single_symbol_type_error :
    get_portfolio_analysis marketC2 ["AAPL"] (some [1]) "1y" =
      PortfolioResult.err "unsupported operand type(s) for ** or pow(): 'list' and 'int'" := by
  with_unfolding_all rfl

/-- C3 counterexample: with symbol A lacking data and symbol B having
data, get_portfolio_analysis returns a single global error for A -- the
batch aborts although one symbol was usable, contradicting the claimed
per-symbol isolation. -/
theorem portfolio_no_isolation_cex :
    get_portfolio_analysis market3 ["A", "B"] none "1y" =
      PortfolioResult.err "No data available for A"
    ∧ market3 "B" = [100, 101, 102] :=
  ⟨by with_unfolding_all rfl, rfl⟩

/-- C3 amended: in get_portfolio_analysis a symbol with no price data
aborts the whole analysis -- once the guards pass, the first symbol in
input order whose history is empty makes the function return the global
error map "No data available for {symbol}", with no per-symbol entries
for the remaining symbols. -/
theorem portfolio_missing_symbol_aborts (market : String → List ℚ)
    (pre post : List String) (s : String) (ws : List ℚ)
    (weights? : Option (List ℚ)) (period per : String)
    (hlen : (pre ++ s :: post).length ≤ 20)
    (hval : mapExcept validate_symbol (pre ++ s :: post) = Except.ok (pre ++ s :: post))
    (hw : portfolio_weights (pre ++ s :: post) weights? = Except.ok ws)
    (hper : validate_period period = Except.ok per)
    (hpre : ∀ t ∈ pre, market t ≠ [])
    (hs : market s = []) :
    get_portfolio_analysis market (pre ++ s :: post) weights? period =
      PortfolioResult.err ("No data available for " ++ s) := by
  have hne : (pre ++ s :: post).length ≠ 0 := by simp
  unfold get_portfolio_analysis portfolio_body
  rw [if_neg hne, if_neg (not_lt.mpr hlen)]
  simp only [hval, hw, hper, fetch_histories_first_missing market pre post s hpre hs]

/-- C3 witness: the amended theorem at a concrete provider where B has
two bars of data and A has none. -/
theorem portfolio_missing_symbol_aborts_witness :
    get_portfolio_analysis market3w ["B", "A"] (some [1 / 2, 1 / 2]) "1y" =
      PortfolioResult.err "No data available for A" :=
  portfolio_missing_symbol_aborts market3w ["B"] [] "A" [1 / 2, 1 / 2]
    (some [1 / 2, 1 / 2]) "1y" "1y" (by simp) (by with_unfolding_all rfl)
    (by with_unfolding_all rfl) rfl
    (by intro t ht; simp at ht; subst ht; simp [market3w])
    (by with_unfolding_all rfl)

/-- C4 counterexample: for returns +10 percent then -10 percent, the
portfolio drawdown expression of server.py line 594 evaluates to +10 --
a positive max_drawdown, contradicting the claim that the value reported
by get_portfolio_analysis is never positive. -/
theorem portfolio_drawdown_positive_cex :
    portfolio_max_drawdown [1 / 10, -1 / 10] = 10
    ∧ ¬ portfolio_max_drawdown [1 / 10, -1 / 10] ≤ 0 := by
  constructor
  · with_unfolding_all rfl
  · intro h
    rw [show portfolio_max_drawdown [1 / 10, -1 / 10] = 10 from by
      with_unfolding_all rfl] at h
    norm_num at h

/-- C4 amended: the max_drawdown of get_risk_analysis is never positive
(for a nonempty aligned return series with every return above -1, the
domain on which the float computation is NaN-free), while the drawdown
expression of get_portfolio_analysis line 594 measures the drop of the
cumulative sum below its running peak and is never negative. -/
theorem drawdown_sign_spec (rs : List ℚ) (_hne : rs ≠ [])
    (_hgt : ∀ r ∈ rs, -1 < r) :
    risk_max_drawdown rs ≤ 0 ∧ ∀ ps : List ℚ, 0 ≤ portfolio_max_drawdown ps := by
  constructor
  · unfold risk_max_drawdown
    refine round2_nonpos ?_
    have := risk_drawdown_series_nonpos (cumprod1p rs)
    nlinarith
  · intro ps
    unfold portfolio_max_drawdown
    refine round2_nonneg ?_
    have := portfolio_drawdown_series_nonneg (cumsum ps)
    nlinarith

/-- C4 witness: the sign facts at concrete return series. -/
theorem drawdown_sign_spec_witness :
    risk_max_drawdown [1 / 100] ≤ 0 ∧ 0 ≤ portfolio_max_drawdown [1 / 10, -1 / 10] :=
  ⟨(drawdown_sign_spec [1 / 100] (by simp) (by norm_num)).1,
   (drawdown_sign_spec [1 / 100] (by simp) (by norm_num)).2 [1 / 10, -1 / 10]⟩

/-- C6 counterexample: a 50-bar constant price series has ample history
for both momentum windows, yet both momentum fields report null because
the computed momentum is exactly 0 and Python truthiness suppresses it --
contradicting "with sufficient history the field is always a number,
including when the price change is zero". -/
theorem momentum_zero_reported_null_cex :
    get_trend_momentum "X" constant_closes = Except.ok (none, none)
    ∧ 50 ≤ constant_closes.length :=
  ⟨by with_unfolding_all rfl, by simp [constant_closes]⟩

/-- C6 amended: for every accepted positive price series (at least 50
bars) both momentum windows are always in range (50 exceeds 10 and 30),
and each momentum field equals the trailing percentage change rounded to
2 decimals when that change is nonzero, and is null exactly when the
change is zero (the truthiness guard of lines 251-252). -/
theorem momentum_report_spec (symbol : String) (closes : List ℚ)
    (hlen : 50 ≤ closes.length) (hpos : ∀ p ∈ closes, 0 < p) :
    get_trend_momentum symbol closes = Except.ok
      (if closes.getLastD 0 = closes.getD (closes.length - 11) 0 then none
       else some (round2
        ((closes.getLastD 0 / closes.getD (closes.length - 11) 0 - 1) * 100)),
       if closes.getLastD 0 = closes.getD (closes.length - 31) 0 then none
       else some (round2
        ((closes.getLastD 0 / closes.getD (closes.length - 31) 0 - 1) * 100))) := by
  have h10 : 10 < closes.length := by omega
  have h30 : 30 < closes.length := by omega
  unfold get_trend_momentum
  rw [if_neg (not_lt.mpr hlen)]
  rw [momentum_field_char closes 10 h10 hpos, momentum_field_char closes 30 h30 hpos]

/-- C6 witness: 49 flat bars then a 10 percent jump report momentum 10.0
on both windows. -/
theorem momentum_report_spec_witness :
    get_trend_momentum "X" closesC6 = Except.ok (some 10, some 10) := by
  rw [momentum_report_spec "X" closesC6 (by simp [closesC6]) (by
    intro p hp
    have h : p = 100 ∨ p = 110 := by simpa [closesC6] using hp
    rcases h with rfl | rfl <;> norm_num)]
  with_unfolding_all rfl

/-- C8 counterexample: a 2-bar constant series passes the len >= 2 gate
of the volatility analysis, yet has a single return, whose sample
standard deviation (ddof = 1) is NaN -- the code computes NaN volatility,
the safe-divide guard does not fire on NaN, and the Sharpe ratio is NaN
too: neither is 0, contradicting the claim on this enough-bars series. -/
theorem constant_two_bar_nan_cex :
    calculate_volatility (calculate_returns [5, 5]) true = none
    ∧ calculate_sharpe_ratio (calculate_returns [5, 5]) (1 / 50) = none
    ∧ calculate_volatility (calculate_returns [5, 5]) true ≠ some 0 := by
  refine ⟨by with_unfolding_all rfl, by with_unfolding_all rfl, ?_⟩
  rw [show calculate_volatility (calculate_returns [5, 5]) true = none from by
    with_unfolding_all rfl]
  simp

/-- C8 amended: a constant price series with at least 3 bars (hence at
least 2 returns) has volatility exactly 0, and the safe-divide contract
makes the Sharpe ratio exactly 0 for any nonzero risk-free rate; with
exactly 2 bars the single return makes both NaN instead. -/
theorem constant_prices_zero_vol_sharpe (prices : List ℚ) (c rf : ℚ)
    (hlen : 3 ≤ prices.length) (hconst : ∀ p ∈ prices, p = c)
    (hc : 0 < c) (_hrf : rf ≠ 0) :
    calculate_volatility (calculate_returns prices) true = some 0
    ∧ calculate_sharpe_ratio (calculate_returns prices) rf = some 0 := by
  have hret := calculate_returns_const c (ne_of_gt hc) prices hconst
  have hvar : sampleVar (calculate_returns prices) = some 0 := by
    rw [hret]
    exact sampleVar_replicate_zero (by omega)
  have hvol : calculate_volatility (calculate_returns prices) true = some 0 := by
    unfold calculate_volatility
    rw [hvar]
    simp
  refine ⟨hvol, ?_⟩
  unfold calculate_sharpe_ratio
  rw [hvol]
  simp [safe_divide]

/-- C8 witness: three bars at price 5 with risk-free rate 0.02. -/
theorem constant_prices_zero_vol_sharpe_witness :
    calculate_volatility (calculate_returns [5, 5, 5]) true = some 0
    ∧ calculate_sharpe_ratio (calculate_returns [5, 5, 5]) (1 / 50) = some 0 :=
  constant_prices_zero_vol_sharpe [5, 5, 5] 5 (1 / 50) (by norm_num)
    (by intro p hp; simp only [List.mem_cons, List.not_mem_nil, or_false] at hp
        rcases hp with rfl | rfl | rfl <;> rfl) (by norm_num) (by norm_num)

/-- C9: the risk rating is a total function of annualized volatility
with fixed thresholds -- Low strictly below 0.15, Medium on [0.15, 0.25),
High at or above 0.25. -/
theorem risk_rating_thresholds (v : ℚ) :
    (v < 15 / 100 → risk_rating v = "Low")
    ∧ (15 / 100 ≤ v → v < 25 / 100 → risk_rating v = "Medium")
    ∧ (25 / 100 ≤ v → risk_rating v = "High") := by
  refine ⟨fun h => ?_, fun h1 h2 => ?_, fun h => ?_⟩
  · simp [risk_rating, h]
  · unfold risk_rating
    rw [if_neg (not_lt.mpr h1), if_pos h2]
  · unfold risk_rating
    rw [if_neg (not_lt.mpr (le_trans (by norm_num) h)), if_neg (not_lt.mpr h)]

/-- C9 witness: 0.15 and 0.2499 map to Medium, 0.25 maps to High. -/
theorem risk_rating_thresholds_witness :
    risk_rating (15 / 100) = "Medium" ∧ risk_rating (2499 / 10000) = "Medium"
    ∧ risk_rating (25 / 100) = "High" :=
  ⟨(risk_rating_thresholds (15 / 100)).2.1 (le_refl _) (by norm_num),
   (risk_rating_thresholds (2499 / 10000)).2.1 (by norm_num) (by norm_num),
   (risk_rating_thresholds (25 / 100)).2.2 (le_refl _)⟩

/-- C10: on a strictly positive n-bar price series (the PriceSeries
invariant of the data model), calculate_returns yields exactly the n-1
pairwise fractional changes close[i]/close[i-1] - 1, the first undefined
point dropped. -/
theorem returns_length_and_values (prices : List ℚ) (hpos : ∀ p ∈ prices, 0 < p) :
    calculate_returns prices =
      List.zipWith (fun prev cur => cur / prev - 1) prices prices.tail
    ∧ (calculate_returns prices).length = prices.length - 1 := by
  have h := calculate_returns_pos prices hpos
  refine ⟨h, ?_⟩
  rw [h, List.length_zipWith, List.length_tail]
  exact Nat.min_eq_right (Nat.sub_le _ _)

/-- C10 witness: the three-bar series 4, 5, 2 yields exactly two
returns. -/
theorem returns_length_and_values_witness :
    calculate_returns [4, 5, 2] =
      List.zipWith (fun prev cur => cur / prev - 1) [4, 5, 2] [5, 2]
    ∧ (calculate_returns [4, 5, 2]).length = 2 :=
  returns_length_and_values [4, 5, 2] (by norm_num)

end Finance
